import Mathlib

/-!
Verification of the telemetry bootstrap module
(`internal/frontend/bridge-gui/bridge-gui/SentryUtils.cpp`) of proton-bridge.

The module is a thin integration layer over the external sentry-native
crash-reporting client. We embed it shallowly:

* pure string computations (`getApiOS`, `appVersion`, `getProtectedHostname`)
  become pure Lean functions;
* the external sentry client's process-wide mutable state (tags, user object,
  captured events, call log) becomes an explicit `ClientState` record threaded
  through the operations;
* the filesystem is a list of existing directory paths; `QDir::mkpath`'s
  outcome (which the source ignores) is injected through a `Bool`;
* `sentry_init`'s return code (the only external failure the source inspects)
  is injected through the configuration record;
* build-time configuration macros (`PROJECT_DSN_SENTRY`,
  `PROJECT_CRASHPAD_HANDLER_PATH`, `PROJECT_FULL_NAME`, `PROJECT_VER`,
  `PROJECT_REVISION`, `PROJECT_BUILD_ENV`) and runtime environment queries
  (`bridgepp::os()`, `bridgelib::goos()`, `bridgelib::userDataDir()`,
  `QSysInfo::machineHostName()`, `QSysInfo::currentCpuArchitecture()`)
  become fields of a `Config` record;
* `QCryptographicHash::hash(·, Sha256)` is modelled by a byte-level SHA-256
  implemented below (FIPS 180-4), and `QByteArray::toHex` by lowercase hex
  encoding.
-/

namespace SentryUtils

/-- The `bridgepp::OS` enum family. The C++ `switch` in `getApiOS` has a
`default:` arm, so we model unrecognized enum values with `Other`. -/
inductive OSFamily where
  | MacOS
  | Windows
  | Linux
  | Other (code : Nat)
  deriving DecidableEq

/-- `static constexpr const char *LoggerName = "bridge-gui";` -/
def LoggerName : String := "bridge-gui"

/-- Build-time configuration and runtime environment consumed by the module. -/
structure Config where
  /-- `PROJECT_DSN_SENTRY` -/
  dsn : String
  /-- `PROJECT_CRASHPAD_HANDLER_PATH` -/
  crashpadHandlerPath : String
  /-- `PROJECT_FULL_NAME` -/
  fullName : String
  /-- `PROJECT_VER` -/
  ver : String
  /-- `PROJECT_REVISION` -/
  revision : String
  /-- `PROJECT_BUILD_ENV` -/
  buildEnv : String
  /-- `bridgepp::os()` -/
  osFamily : OSFamily
  /-- `bridgelib::goos()` -/
  goos : String
  /-- `QSysInfo::machineHostName()` -/
  hostname : String
  /-- `QSysInfo::currentCpuArchitecture()` -/
  cpuArch : String
  /-- `bridgelib::userDataDir()` -/
  userDataDir : String
  /-- outcome of `QDir().mkpath(...)` (the source discards it) -/
  mkpathOk : Bool
  /-- return code of the external `sentry_init` call -/
  sentryInitRet : Int
  deriving DecidableEq

/-! ### The sentry options record (`sentry_options_t`) and its setters. -/

/-- Model of `sentry_options_t`: the fields this module touches. A fresh
record from `sentry_options_new` has no DSN/paths set and sentry-native's
default breadcrumb cap of 100. -/
structure SentryOptions where
  dsn : Option String := none
  databasePath : Option String := none
  release : Option String := none
  maxBreadcrumbs : Nat := 100
  environment : Option String := none
  handlerPath : Option String := none
  deriving DecidableEq

def sentry_options_new : SentryOptions := {}

def sentry_options_set_dsn (o : SentryOptions) (dsn : String) : SentryOptions :=
  { o with dsn := some dsn }

def sentry_options_set_database_path (o : SentryOptions) (p : String) : SentryOptions :=
  { o with databasePath := some p }

def sentry_options_set_release (o : SentryOptions) (r : String) : SentryOptions :=
  { o with release := some r }

def sentry_options_set_max_breadcrumbs (o : SentryOptions) (n : Nat) : SentryOptions :=
  { o with maxBreadcrumbs := n }

def sentry_options_set_environment (o : SentryOptions) (e : String) : SentryOptions :=
  { o with environment := some e }

def sentry_options_set_handler_path (o : SentryOptions) (p : String) : SentryOptions :=
  { o with handlerPath := some p }

/-! ### Pure string computations of the source file. -/

/-- `getApiOS()`:
```
switch (os()) {
case OS::MacOS: return "macos";
case OS::Windows: return "windows";
case OS::Linux: default: return "linux";
}
``` -/
def getApiOS (osf : OSFamily) : String :=
  match osf with
  | .MacOS => "macos"
  | .Windows => "windows"
  | .Linux => "linux"
  | .Other _ => "linux"

/-- `appVersion(version)`: `QString("%1-bridge@%2").arg(getApiOS(), version)`. -/
def appVersion (osf : OSFamily) (version : String) : String :=
  getApiOS osf ++ "-bridge@" ++ version

/-- `newSentryOptions(sentryDNS, cacheDir)`: builds the options record.
The source reads `PROJECT_VER` and `PROJECT_BUILD_ENV` (and, through
`appVersion`, the OS family) from build configuration, here `cfg`. -/
def newSentryOptions (cfg : Config) (sentryDNS : String) (cacheDir : String) :
    SentryOptions :=
  let o := sentry_options_new
  let o := sentry_options_set_dsn o sentryDNS
  let o := sentry_options_set_database_path o cacheDir
  let o := sentry_options_set_release o (appVersion cfg.osFamily cfg.ver)
  let o := sentry_options_set_max_breadcrumbs o 50
  sentry_options_set_environment o cfg.buildEnv

/-! ### SHA-256 (FIPS 180-4), the algorithm behind
`QCryptographicHash::hash(·, QCryptographicHash::Sha256)`.
Words are `Nat` reduced modulo `2 ^ 32`; messages are byte lists. -/

def M32 : Nat := 4294967296

def add32 (a b : Nat) : Nat := (a + b) % M32

def rotr32 (n x : Nat) : Nat := ((x >>> n) ||| (x <<< (32 - n))) % M32

def shaCh (x y z : Nat) : Nat := (x &&& y) ^^^ ((x ^^^ 4294967295) &&& z)

def shaMaj (x y z : Nat) : Nat := (x &&& y) ^^^ (x &&& z) ^^^ (y &&& z)

def bigSigma0 (x : Nat) : Nat := rotr32 2 x ^^^ rotr32 13 x ^^^ rotr32 22 x

def bigSigma1 (x : Nat) : Nat := rotr32 6 x ^^^ rotr32 11 x ^^^ rotr32 25 x

def smallSigma0 (x : Nat) : Nat := rotr32 7 x ^^^ rotr32 18 x ^^^ (x >>> 3)

def smallSigma1 (x : Nat) : Nat := rotr32 17 x ^^^ rotr32 19 x ^^^ (x >>> 10)

/-- The 64 SHA-256 round constants (FIPS 180-4 §4.2.2), in decimal. -/
def shaK : List Nat :=
  [1116352408, 1899447441, 3049323471, 3921009573, 961987163, 1508970993,
   2453635748, 2870763221, 3624381080, 310598401, 607225278, 1426881987,
   1925078388, 2162078206, 2614888103, 3248222580, 3835390401, 4022224774,
   264347078, 604807628, 770255983, 1249150122, 1555081692, 1996064986,
   2554220882, 2821834349, 2952996808, 3210313671, 3336571891, 3584528711,
   113926993, 338241895, 666307205, 773529912, 1294757372, 1396182291,
   1695183700, 1986661051, 2177026350, 2456956037, 2730485921, 2820302411,
   3259730800, 3345764771, 3516065817, 3600352804, 4094571909, 275423344,
   430227734, 506948616, 659060556, 883997877, 958139571, 1322822218,
   1537002063, 1747873779, 1955562222, 2024104815, 2227730452, 2361852424,
   2428436474, 2756734187, 3204031479, 3329325298]

/-- Working state and hash value: eight 32-bit words. -/
structure H8 where
  a : Nat
  b : Nat
  c : Nat
  d : Nat
  e : Nat
  f : Nat
  g : Nat
  h : Nat
  deriving DecidableEq

/-- SHA-256 initial hash value (FIPS 180-4 §5.3.3), in decimal. -/
def shaH0 : H8 :=
  ⟨1779033703, 3144134277, 1013904242, 2773480762,
   1359893119, 2600822924, 528734635, 1541459225⟩

/-- Big-endian 8-byte encoding of the message bit length. -/
def bitLenBytes (n : Nat) : List Nat :=
  [(n >>> 56) % 256, (n >>> 48) % 256, (n >>> 40) % 256, (n >>> 32) % 256,
   (n >>> 24) % 256, (n >>> 16) % 256, (n >>> 8) % 256, n % 256]

/-- Pad a byte message to a multiple of 64 bytes: `0x80`, zeros, 64-bit length. -/
def padMessage (msg : List Nat) : List Nat :=
  let L := msg.length
  let zeros := (120 - ((L + 1) % 64)) % 64
  msg ++ 0x80 :: List.replicate zeros 0 ++ bitLenBytes (8 * L)

/-- Big-endian 32-bit words from bytes (four at a time). -/
def bytesToWords : List Nat → List Nat
  | b0 :: b1 :: b2 :: b3 :: rest =>
      ((b0 % 256) * 16777216 + (b1 % 256) * 65536 + (b2 % 256) * 256 + b3 % 256)
        :: bytesToWords rest
  | _ => []

/-- Next word of the message schedule, from the last 16 words. -/
def scheduleWord (w : List Nat) : Nat :=
  add32 (add32 (smallSigma1 (w.getD (w.length - 2) 0)) (w.getD (w.length - 7) 0))
        (add32 (smallSigma0 (w.getD (w.length - 15) 0)) (w.getD (w.length - 16) 0))

/-- Extend the 16-word schedule by `n` further words. -/
def extendSchedule (w : List Nat) : Nat → List Nat
  | 0 => w
  | n + 1 => extendSchedule (w ++ [scheduleWord w]) n

/-- One SHA-256 compression round, fed a `(schedule word, round constant)` pair. -/
def roundStep (st : H8) (wk : Nat × Nat) : H8 :=
  let t1 := add32 st.h (add32 (bigSigma1 st.e) (add32 (shaCh st.e st.f st.g) (add32 wk.2 wk.1)))
  let t2 := add32 (bigSigma0 st.a) (shaMaj st.a st.b st.c)
  { a := add32 t1 t2, b := st.a, c := st.b, d := st.c,
    e := add32 st.d t1, f := st.e, g := st.f, h := st.g }

/-- Compress one 64-byte chunk into the running hash value. -/
def compressChunk (h0 : H8) (chunk : List Nat) : H8 :=
  let w := extendSchedule (bytesToWords chunk) 48
  let st := (w.zip shaK).foldl roundStep h0
  { a := add32 h0.a st.a, b := add32 h0.b st.b, c := add32 h0.c st.c, d := add32 h0.d st.d,
    e := add32 h0.e st.e, f := add32 h0.f st.f, g := add32 h0.g st.g, h := add32 h0.h st.h }

/-- Process `n` 64-byte chunks of `bytes`. -/
def processChunks : Nat → List Nat → H8 → H8
  | 0, _, h0 => h0
  | n + 1, bytes, h0 => processChunks n (bytes.drop 64) (compressChunk h0 (bytes.take 64))

/-- Big-endian bytes of one 32-bit word. -/
def wordBytes (w : Nat) : List Nat :=
  [(w >>> 24) % 256, (w >>> 16) % 256, (w >>> 8) % 256, w % 256]

/-- SHA-256 digest (32 bytes) of a byte message. -/
def sha256Bytes (msg : List Nat) : List Nat :=
  let padded := padMessage msg
  let hf := processChunks (padded.length / 64) padded shaH0
  wordBytes hf.a ++ wordBytes hf.b ++ wordBytes hf.c ++ wordBytes hf.d ++
    wordBytes hf.e ++ wordBytes hf.f ++ wordBytes hf.g ++ wordBytes hf.h

/-! ### Lowercase hex encoding (`QByteArray::toHex`) and UTF-8
(`QString::toUtf8`). -/

/-- The sixteen lowercase hex digits. -/
def hexChars : List Char := "0123456789abcdef".data

def hexDigitChar (n : Nat) : Char := hexChars.getD (n % 16) '0'

/-- Two lowercase hex characters of one byte, high nibble first. -/
def byteToHexChars (b : Nat) : List Char := [hexDigitChar (b / 16), hexDigitChar b]

/-- Lowercase hex string of a byte list (`QByteArray::toHex`). -/
def bytesToHex (bs : List Nat) : String := ⟨bs.flatMap byteToHexChars⟩

/-- UTF-8 bytes of a string (`QString::toUtf8`). -/
def utf8Encode (s : String) : List Nat := s.toUTF8.toList.map (fun b => b.toNat)

/-- `getProtectedHostname()`:
```
QByteArray hostname = QCryptographicHash::hash(QSysInfo::machineHostName().toUtf8(),
                                               QCryptographicHash::Sha256);
return hostname.toHex();
```
The machine host name is the argument. -/
def getProtectedHostname (hostname : String) : String :=
  bytesToHex (sha256Bytes (utf8Encode hostname))

/-! ### Filesystem model and the cache directory. -/

/-- The filesystem, as the set (list) of existing directory paths. -/
abbrev FS := List String

/-- `QDir().mkpath(p)`: creates `p` if absent; `ok` is the outcome of an
attempted creation (ignored by the caller in the source). An existing
directory is left untouched. -/
def mkpath (ok : Bool) (fs : FS) (p : String) : FS :=
  if p ∈ fs then fs else if ok then p :: fs else fs

/-- `sentryCacheDir()`:
```
QString const path = QDir(bridgelib::userDataDir()).absoluteFilePath("sentry_cache");
QDir().mkpath(path);
return path;
```
`userDataDir` is the (absolute) user-data root; the result of `mkpath` is
discarded, so only its filesystem effect remains. -/
def sentryCacheDir (userDataDir : String) (ok : Bool) (fs : FS) : String × FS :=
  let path := userDataDir ++ "/sentry_cache"
  (path, mkpath ok fs path)

/-! ### The external sentry client's process-wide state, and the stateful
operations of the source file. -/

/-- Model of `sentry_value_new_exception(type, value)`. -/
structure SException where
  excType : String
  excValue : String
  deriving DecidableEq

/-- Model of a sentry event value: what
`sentry_value_new_message_event(level, logger, message)` sets, plus the
exceptions attached by `sentry_event_add_exception`. Levels
(`sentry_level_t`) are integers. -/
structure SentryEvent where
  level : Int
  logger : String
  message : String
  exceptions : List SException
  deriving DecidableEq

/-- One call into the sentry client's API, for the call log. -/
inductive SCall where
  | init (opts : SentryOptions)
  | setTag (key value : String)
  | setUser (user : List (String × String))
  | capture (event : SentryEvent)
  deriving DecidableEq

/-- The sentry client's process-wide mutable state: scope tags, user object,
captured events (with the next event id the client will assign), whether the
client initialized, the options passed to `sentry_init`, and a log of API
calls in order. -/
structure ClientState where
  inited : Bool
  options : Option SentryOptions
  tags : List (String × String)
  user : Option (List (String × String))
  events : List SentryEvent
  nextId : Nat
  calls : List SCall
  deriving DecidableEq

/-- The client state before any call. -/
def emptyClient : ClientState :=
  { inited := false, options := none, tags := [], user := none,
    events := [], nextId := 0, calls := [] }

/-- Set a key in an association list, replacing in place; a new key is
appended at the end. Last write wins per key. -/
def setTagEntry : List (String × String) → String → String → List (String × String)
  | [], k, v => [(k, v)]
  | (k', v') :: rest, k, v =>
      if k' = k then (k, v) :: rest else (k', v') :: setTagEntry rest k v

/-- Look a key up in the tag list. -/
def lookupTag : List (String × String) → String → Option String
  | [], _ => none
  | (k', v') :: rest, k => if k' = k then some v' else lookupTag rest k

/-- `sentry_set_tag(key, value)`: the client stores one value per tag key,
last write wins. -/
def sentry_set_tag (st : ClientState) (key value : String) : ClientState :=
  { st with tags := setTagEntry st.tags key value,
            calls := st.calls ++ [SCall.setTag key value] }

/-- `sentry_set_user(user)`: replaces the scope's user object. -/
def sentry_set_user (st : ClientState) (user : List (String × String)) : ClientState :=
  { st with user := some user, calls := st.calls ++ [SCall.setUser user] }

/-- `sentry_init(options)`: the external client consumes the options once and
returns a code, `ret` here (0 on success). -/
def sentry_init (st : ClientState) (opts : SentryOptions) (ret : Int) : Int × ClientState :=
  (ret, { st with inited := ret == 0, options := some opts,
                  calls := st.calls ++ [SCall.init opts] })

/-- `sentry_capture_event(event)`: the client stores the event and returns the
id (`sentry_uuid_t`) it assigns to it. -/
def sentry_capture_event (st : ClientState) (event : SentryEvent) : Nat × ClientState :=
  (st.nextId, { st with events := st.events ++ [event], nextId := st.nextId + 1,
                        calls := st.calls ++ [SCall.capture event] })

/-- `sentry_value_new_message_event(level, logger, message)`. -/
def sentry_value_new_message_event (level : Int) (logger message : String) : SentryEvent :=
  { level := level, logger := logger, message := message, exceptions := [] }

/-- `sentry_event_add_exception(event, exception)`. -/
def sentry_event_add_exception (event : SentryEvent) (exc : SException) : SentryEvent :=
  { event with exceptions := event.exceptions ++ [exc] }

/-- `sentry_value_new_exception(type, value)`. -/
def sentry_value_new_exception (excType excValue : String) : SException :=
  ⟨excType, excValue⟩

/-- `setSentryReportScope()`:
```
sentry_set_tag("OS", bridgelib::goos().toUtf8());
sentry_set_tag("Client", PROJECT_FULL_NAME);
sentry_set_tag("Version", PROJECT_REVISION);
sentry_set_tag("HostArch", QSysInfo::currentCpuArchitecture().toUtf8());
sentry_set_tag("server_name", getProtectedHostname());
sentry_value_t user = sentry_value_new_object();
sentry_value_set_by_key(user, "id", sentry_value_new_string(getProtectedHostname()));
sentry_set_user(user);
``` -/
def setSentryReportScope (cfg : Config) (st : ClientState) : ClientState :=
  let st := sentry_set_tag st "OS" cfg.goos
  let st := sentry_set_tag st "Client" cfg.fullName
  let st := sentry_set_tag st "Version" cfg.revision
  let st := sentry_set_tag st "HostArch" cfg.cpuArch
  let st := sentry_set_tag st "server_name" (getProtectedHostname cfg.hostname)
  let user := [("id", getProtectedHostname cfg.hostname)]
  sentry_set_user st user

/-- The options `initSentry` passes to `sentry_init`, given the cache path:
`newSentryOptions(PROJECT_DSN_SENTRY, cachePath)` with the handler path set
when the build-time `PROJECT_CRASHPAD_HANDLER_PATH` is non-empty. -/
def initOptions (cfg : Config) (cachePath : String) : SentryOptions :=
  let opts := newSentryOptions cfg cfg.dsn cachePath
  if cfg.crashpadHandlerPath ≠ "" then
    sentry_options_set_handler_path opts cfg.crashpadHandlerPath
  else opts

/-- `initSentry()`:
```
sentry_options_t *sentryOptions = newSentryOptions(PROJECT_DSN_SENTRY, sentryCacheDir()...);
if (!QString(PROJECT_CRASHPAD_HANDLER_PATH).isEmpty())
    sentry_options_set_handler_path(sentryOptions, PROJECT_CRASHPAD_HANDLER_PATH);
if (sentry_init(sentryOptions) != 0) {
    QTextStream(stderr) << "Failed to initialize sentry\n";
}
setSentryReportScope();
```
Returns the lines written to standard error, the filesystem after the cache
directory creation, and the client state. -/
def initSentry (cfg : Config) (fs : FS) (st : ClientState) :
    List String × FS × ClientState :=
  let (cachePath, fs₁) := sentryCacheDir cfg.userDataDir cfg.mkpathOk fs
  let opts := initOptions cfg cachePath
  let (ret, st₁) := sentry_init st opts cfg.sentryInitRet
  let stderrLines := if ret ≠ 0 then ["Failed to initialize sentry"] else []
  let st₂ := setSentryReportScope cfg st₁
  (stderrLines, fs₁, st₂)

/-- `reportSentryEvent(level, message)`:
```
auto event = sentry_value_new_message_event(level, LoggerName, message);
return sentry_capture_event(event);
``` -/
def reportSentryEvent (level : Int) (message : String) (st : ClientState) :
    Nat × ClientState :=
  let event := sentry_value_new_message_event level LoggerName message
  sentry_capture_event st event

/-- `reportSentryException(level, message, exceptionType, exception)`:
```
auto event = sentry_value_new_message_event(level, LoggerName, message);
sentry_event_add_exception(event, sentry_value_new_exception(exceptionType, exception));
return sentry_capture_event(event);
``` -/
def reportSentryException (level : Int) (message exceptionType exception : String)
    (st : ClientState) : Nat × ClientState :=
  let event := sentry_value_new_message_event level LoggerName message
  let event := sentry_event_add_exception event
    (sentry_value_new_exception exceptionType exception)
  sentry_capture_event st event

/-! ### The module's exposed operations, reified, with the error channel the
shallow embedding gives fallible code (`Except`). None of the source
functions throws, aborts, or returns a typed error: external failures
(`mkpath` outcome, `sentry_init` return code) are handled inside —
ignored resp. logged to standard error. -/

/-- One call to an operation exposed by the module, with its arguments. -/
inductive OpCall where
  | callInitSentry
  | callSetScope
  | callCacheDir
  | callHostname
  | callApiOS
  | callAppVersion (version : String)
  | callBuildOptions (dsn cacheDir : String)
  | callReportEvent (level : Int) (message : String)
  | callReportException (level : Int) (message exceptionType exceptionValue : String)
  deriving DecidableEq

/-- The result of one operation call. -/
inductive OpOut where
  | procOut (stderrLines : List String) (fs : FS) (st : ClientState)
  | strOut (s : String) (fs : FS)
  | optsOut (o : SentryOptions)
  | eventOut (id : Nat) (st : ClientState)
  deriving DecidableEq

/-- Run one exposed operation. The `Except` layer is where a thrown exception
or typed error would surface; every branch returns `.ok` because the source
handles all failures observationally. -/
def runOp (call : OpCall) (cfg : Config) (fs : FS) (st : ClientState) :
    Except String OpOut :=
  match call with
  | .callInitSentry =>
      let (errs, fs₁, st₁) := initSentry cfg fs st
      .ok (.procOut errs fs₁ st₁)
  | .callSetScope => .ok (.procOut [] fs (setSentryReportScope cfg st))
  | .callCacheDir =>
      let (path, fs₁) := sentryCacheDir cfg.userDataDir cfg.mkpathOk fs
      .ok (.strOut path fs₁)
  | .callHostname => .ok (.strOut (getProtectedHostname cfg.hostname) fs)
  | .callApiOS => .ok (.strOut (getApiOS cfg.osFamily) fs)
  | .callAppVersion version => .ok (.strOut (appVersion cfg.osFamily version) fs)
  | .callBuildOptions dsn cacheDir => .ok (.optsOut (newSentryOptions cfg dsn cacheDir))
  | .callReportEvent level message =>
      let (id, st₁) := reportSentryEvent level message st
      .ok (.eventOut id st₁)
  | .callReportException level message excType excValue =>
      let (id, st₁) := reportSentryException level message excType excValue st
      .ok (.eventOut id st₁)

/-- The sequence of sentry API calls `setSentryReportScope` performs, in
source order. -/
def scopeCalls (cfg : Config) : List SCall :=
  [SCall.setTag "OS" cfg.goos, SCall.setTag "Client" cfg.fullName,
   SCall.setTag "Version" cfg.revision, SCall.setTag "HostArch" cfg.cpuArch,
   SCall.setTag "server_name" (getProtectedHostname cfg.hostname),
   SCall.setUser [("id", getProtectedHostname cfg.hostname)]]

/-- A sample configuration used to instantiate universally quantified
statements at concrete values. -/
def sampleConfig : Config :=
  { dsn := "https://public@sentry.example/42", crashpadHandlerPath := "",
    fullName := "Proton Mail Bridge", ver := "3.0.0", revision := "abc123",
    buildEnv := "prod", osFamily := OSFamily.Linux, goos := "linux",
    hostname := "host-1", cpuArch := "x86_64",
    userDataDir := "/home/user/.config/protonmail/bridge-v3",
    mkpathOk := true, sentryInitRet := 0 }

/-! ### Helper lemmas. -/

theorem flatMap_hex_length (bs : List Nat) :
    (bs.flatMap byteToHexChars).length = 2 * bs.length := by
  induction bs with
  | nil => rfl
  | cons b rest ih => simp [byteToHexChars, ih]; omega

theorem hexChars_getD_mem (m : Nat) (h : m < 16) :
    hexChars.getD m '0' ∈ hexChars := by
  interval_cases m <;> decide

theorem hexDigitChar_mem (n : Nat) : hexDigitChar n ∈ hexChars :=
  hexChars_getD_mem (n % 16) (Nat.mod_lt _ (by norm_num))

theorem all_hex_flatMap (bs : List Nat) :
    (bs.flatMap byteToHexChars).all (fun c => hexChars.contains c) = true := by
  induction bs with
  | nil => rfl
  | cons b rest ih =>
    simp [byteToHexChars] at ih ⊢
    exact ⟨hexDigitChar_mem _, hexDigitChar_mem _, ih⟩

theorem sha256Bytes_length (msg : List Nat) : (sha256Bytes msg).length = 32 := by
  simp [sha256Bytes, wordBytes]

theorem lookupTag_setTagEntry_self (t : List (String × String)) (k v : String) :
    lookupTag (setTagEntry t k v) k = some v := by
  induction t with
  | nil => simp [setTagEntry, lookupTag]
  | cons p rest ih =>
    obtain ⟨k', v'⟩ := p
    by_cases h : k' = k
    · subst h; simp [setTagEntry, lookupTag]
    · simp [setTagEntry, h, lookupTag, ih]

theorem lookupTag_setTagEntry_ne (t : List (String × String)) (k v k' : String)
    (h : k ≠ k') : lookupTag (setTagEntry t k v) k' = lookupTag t k' := by
  induction t with
  | nil => simp [setTagEntry, lookupTag, h]
  | cons p rest ih =>
    obtain ⟨k'', v''⟩ := p
    by_cases h2 : k'' = k
    · subst h2; simp [setTagEntry, lookupTag, h]
    · simp [setTagEntry, h2, lookupTag, ih]

theorem setTagEntry_self_of_lookup (t : List (String × String)) (k v : String)
    (h : lookupTag t k = some v) : setTagEntry t k v = t := by
  induction t with
  | nil => simp [lookupTag] at h
  | cons p rest ih =>
    obtain ⟨k', v'⟩ := p
    by_cases h2 : k' = k
    · subst h2
      simp [lookupTag] at h
      simp [setTagEntry, h]
    · simp [lookupTag, h2] at h
      simp [setTagEntry, h2, ih h]

/-- The keys of a tag list, in order. -/
def tagKeys : List (String × String) → List String
  | [] => []
  | (k, _) :: rest => k :: tagKeys rest

theorem mem_tagKeys_setTagEntry (t : List (String × String)) (k v x : String)
    (hx : x ∈ tagKeys (setTagEntry t k v)) : x = k ∨ x ∈ tagKeys t := by
  induction t with
  | nil =>
    simp [setTagEntry, tagKeys] at hx
    exact Or.inl hx
  | cons p rest ih =>
    obtain ⟨k', v'⟩ := p
    by_cases h : k' = k
    · subst h
      simp [setTagEntry, tagKeys] at hx ⊢
      tauto
    · simp [setTagEntry, h, tagKeys] at hx ⊢
      rcases hx with rfl | hx2
      · tauto
      · rcases ih hx2 with rfl | h3 <;> tauto

theorem nodup_tagKeys_setTagEntry (t : List (String × String)) (k v : String)
    (h : (tagKeys t).Nodup) : (tagKeys (setTagEntry t k v)).Nodup := by
  induction t with
  | nil => simp [setTagEntry, tagKeys]
  | cons p rest ih =>
    obtain ⟨k', v'⟩ := p
    simp [tagKeys, List.nodup_cons] at h
    by_cases h2 : k' = k
    · subst h2
      simp [setTagEntry, tagKeys, List.nodup_cons]
      exact h
    · simp [setTagEntry, h2, tagKeys, List.nodup_cons]
      refine ⟨fun hx => ?_, ih h.2⟩
      rcases mem_tagKeys_setTagEntry rest k v k' hx with rfl | hx2
      · exact h2 rfl
      · exact h.1 hx2

theorem setScope_tags (cfg : Config) (st : ClientState) :
    (setSentryReportScope cfg st).tags =
      setTagEntry (setTagEntry (setTagEntry (setTagEntry (setTagEntry st.tags
        "OS" cfg.goos) "Client" cfg.fullName) "Version" cfg.revision)
        "HostArch" cfg.cpuArch) "server_name" (getProtectedHostname cfg.hostname) := rfl

theorem setScope_user (cfg : Config) (st : ClientState) :
    (setSentryReportScope cfg st).user
      = some [("id", getProtectedHostname cfg.hostname)] := rfl

theorem setScope_calls (cfg : Config) (st : ClientState) :
    (setSentryReportScope cfg st).calls = st.calls ++ scopeCalls cfg := by
  simp [setSentryReportScope, sentry_set_tag, sentry_set_user, scopeCalls]

theorem scope_lookups (cfg : Config) (st : ClientState) :
    lookupTag (setSentryReportScope cfg st).tags "OS" = some cfg.goos
    ∧ lookupTag (setSentryReportScope cfg st).tags "Client" = some cfg.fullName
    ∧ lookupTag (setSentryReportScope cfg st).tags "Version" = some cfg.revision
    ∧ lookupTag (setSentryReportScope cfg st).tags "HostArch" = some cfg.cpuArch
    ∧ lookupTag (setSentryReportScope cfg st).tags "server_name"
        = some (getProtectedHostname cfg.hostname) := by
  rw [setScope_tags]
  refine ⟨?_, ?_, ?_, ?_, ?_⟩ <;>
    simp +decide [lookupTag_setTagEntry_ne, lookupTag_setTagEntry_self]

theorem scope_tags_idem (cfg : Config) (st : ClientState) :
    (setSentryReportScope cfg (setSentryReportScope cfg st)).tags
      = (setSentryReportScope cfg st).tags := by
  have hl := scope_lookups cfg st
  conv_lhs => rw [setScope_tags]
  rw [setTagEntry_self_of_lookup _ _ _ hl.1,
      setTagEntry_self_of_lookup _ _ _ hl.2.1,
      setTagEntry_self_of_lookup _ _ _ hl.2.2.1,
      setTagEntry_self_of_lookup _ _ _ hl.2.2.2.1,
      setTagEntry_self_of_lookup _ _ _ hl.2.2.2.2]

/-! ### Claim theorems. -/

/-- C1: `initSentry` builds the options record (handler path set exactly when
the build-time crash-handler path is non-empty), passes it to `sentry_init`,
writes exactly one diagnostic line to standard error when that call returns
non-zero (and none otherwise), never aborts, and in both cases subsequently
performs the `setSentryReportScope` calls. -/
theorem initSentry_spec (cfg : Config) (fs : FS) (st : ClientState) :
    initSentry cfg fs st =
      ((if cfg.sentryInitRet ≠ 0 then ["Failed to initialize sentry"] else []),
        (sentryCacheDir cfg.userDataDir cfg.mkpathOk fs).2,
        setSentryReportScope cfg
          (sentry_init st
            (initOptions cfg (sentryCacheDir cfg.userDataDir cfg.mkpathOk fs).1)
            cfg.sentryInitRet).2)
    ∧ (initOptions cfg (sentryCacheDir cfg.userDataDir cfg.mkpathOk fs).1).handlerPath
        = (if cfg.crashpadHandlerPath = "" then none else some cfg.crashpadHandlerPath)
    ∧ (initSentry cfg fs st).1
        = (if cfg.sentryInitRet = 0 then [] else ["Failed to initialize sentry"])
    ∧ (initSentry cfg fs st).2.2.calls
        = st.calls
          ++ SCall.init (initOptions cfg (sentryCacheDir cfg.userDataDir cfg.mkpathOk fs).1)
            :: scopeCalls cfg := by
  refine ⟨rfl, ?_, ?_, ?_⟩
  · by_cases h : cfg.crashpadHandlerPath = "" <;>
      simp [initOptions, h, newSentryOptions, sentry_options_new, sentry_options_set_dsn,
        sentry_options_set_database_path, sentry_options_set_release,
        sentry_options_set_max_breadcrumbs, sentry_options_set_environment,
        sentry_options_set_handler_path]
  · by_cases h : cfg.sentryInitRet = 0 <;>
      simp [initSentry, sentry_init, h]
  · show (setSentryReportScope cfg _).calls = _
    rw [setScope_calls]
    simp [sentry_init, sentryCacheDir]

/-- C2: no operation exposed by the module ever throws, aborts, or propagates
a typed error: running any of the nine exposed operations, on any
configuration (any `sentry_init` return code, any directory-creation
outcome), any filesystem and any client state, yields an `Except.ok`
result. -/
theorem runOp_never_fails (call : OpCall) (cfg : Config) (fs : FS)
    (st : ClientState) : ∃ out, runOp call cfg fs st = Except.ok out := by
  cases call <;> exact ⟨_, rfl⟩

/-- C3: `getApiOS` returns one of `"macos"`, `"windows"`, `"linux"` on every
OS-family input: `"macos"` for macOS, `"windows"` for Windows, `"linux"` for
Linux and for every unrecognized family. -/
theorem getApiOS_spec (osf : OSFamily) :
    (getApiOS osf = "macos" ∨ getApiOS osf = "windows" ∨ getApiOS osf = "linux")
    ∧ getApiOS OSFamily.MacOS = "macos"
    ∧ getApiOS OSFamily.Windows = "windows"
    ∧ getApiOS OSFamily.Linux = "linux"
    ∧ ∀ code : Nat, getApiOS (OSFamily.Other code) = "linux" := by
  refine ⟨?_, rfl, rfl, rfl, fun _ => rfl⟩
  cases osf <;> simp [getApiOS]

/-- C4: `getProtectedHostname` is deterministic, equals the lowercase hex
encoding of the 256-bit SHA-256 digest (32 bytes) of the UTF-8 hostname, and
its output has 64 characters, all lowercase hexadecimal digits. -/
theorem getProtectedHostname_spec (hostname : String) :
    getProtectedHostname hostname = getProtectedHostname hostname
    ∧ getProtectedHostname hostname = bytesToHex (sha256Bytes (utf8Encode hostname))
    ∧ (sha256Bytes (utf8Encode hostname)).length = 32
    ∧ (getProtectedHostname hostname).length = 64
    ∧ ((getProtectedHostname hostname).data.all
        (fun c => hexChars.contains c)) = true := by
  refine ⟨rfl, rfl, sha256Bytes_length _, ?_, ?_⟩
  · show (bytesToHex (sha256Bytes (utf8Encode hostname))).length = 64
    rw [show ∀ bs, (bytesToHex bs).length = (bs.flatMap byteToHexChars).length
          from fun _ => rfl,
        flatMap_hex_length, sha256Bytes_length]
  · exact all_hex_flatMap _

/-- C5: `sentryCacheDir` returns `<userDataRoot>/sentry_cache` for every
user-data root; a second call returns the same path and leaves the filesystem
of the first call unchanged; an already-existing directory at the path is
left untouched. -/
theorem sentryCacheDir_spec (dir : String) (ok : Bool) (fs : FS) :
    (sentryCacheDir dir ok fs).1 = dir ++ "/sentry_cache"
    ∧ (sentryCacheDir dir ok (sentryCacheDir dir ok fs).2).1
        = (sentryCacheDir dir ok fs).1
    ∧ (sentryCacheDir dir ok (sentryCacheDir dir ok fs).2).2
        = (sentryCacheDir dir ok fs).2
    ∧ (dir ++ "/sentry_cache" ∈ fs → (sentryCacheDir dir ok fs).2 = fs) := by
  refine ⟨rfl, rfl, ?_, ?_⟩
  · by_cases h : dir ++ "/sentry_cache" ∈ fs
    · simp [sentryCacheDir, mkpath, h]
    · cases ok <;> simp [sentryCacheDir, mkpath, h]
  · intro h
    simp [sentryCacheDir, mkpath, h]

/-- C5 witness: with the cache directory already present, the filesystem is
unchanged. -/
theorem sentryCacheDir_spec_witness :
    (sentryCacheDir "/home/user" true ["/home/user/sentry_cache"]).2
      = ["/home/user/sentry_cache"] :=
  (sentryCacheDir_spec "/home/user" true ["/home/user/sentry_cache"]).2.2.2
    (by decide)

/-- C6: `setSentryReportScope` is idempotent on the scope (tags and user): a
second call leaves both unchanged; each of the five tag keys holds exactly
the (last-written) value, the user object is the pseudonymous
`[("id", hashed hostname)]`, and tag keys stay duplicate-free. -/
theorem setSentryReportScope_idem (cfg : Config) (st : ClientState) :
    ((setSentryReportScope cfg (setSentryReportScope cfg st)).tags
        = (setSentryReportScope cfg st).tags
      ∧ (setSentryReportScope cfg (setSentryReportScope cfg st)).user
        = (setSentryReportScope cfg st).user
      ∧ lookupTag (setSentryReportScope cfg st).tags "OS" = some cfg.goos
      ∧ lookupTag (setSentryReportScope cfg st).tags "Client" = some cfg.fullName
      ∧ lookupTag (setSentryReportScope cfg st).tags "Version" = some cfg.revision
      ∧ lookupTag (setSentryReportScope cfg st).tags "HostArch" = some cfg.cpuArch
      ∧ lookupTag (setSentryReportScope cfg st).tags "server_name"
          = some (getProtectedHostname cfg.hostname)
      ∧ (setSentryReportScope cfg st).user
          = some [("id", getProtectedHostname cfg.hostname)])
    ∧ ((tagKeys st.tags).Nodup → (tagKeys (setSentryReportScope cfg st).tags).Nodup) := by
  have hl := scope_lookups cfg st
  refine ⟨⟨scope_tags_idem cfg st,
    (setScope_user cfg _).trans (setScope_user cfg st).symm,
    hl.1, hl.2.1, hl.2.2.1, hl.2.2.2.1, hl.2.2.2.2, setScope_user cfg st⟩, ?_⟩
  intro h
  rw [setScope_tags]
  exact nodup_tagKeys_setTagEntry _ _ _ (nodup_tagKeys_setTagEntry _ _ _
    (nodup_tagKeys_setTagEntry _ _ _ (nodup_tagKeys_setTagEntry _ _ _
      (nodup_tagKeys_setTagEntry _ _ _ h))))

/-- C6 witness: on the fresh client state the scope's tag keys are
duplicate-free after `setSentryReportScope`. -/
theorem setSentryReportScope_idem_witness :
    (tagKeys (setSentryReportScope sampleConfig emptyClient).tags).Nodup :=
  (setSentryReportScope_idem sampleConfig emptyClient).2 (by decide)

/-- C7: `newSentryOptions` sets the breadcrumb cap to 50 for all inputs, and
sets the given DSN, the given cache path, the release string
`appVersion(PROJECT_VER)` and the build-environment name; it is a pure
record construction (no handler path, no filesystem effect). -/
theorem newSentryOptions_spec (cfg : Config) (dsn cacheDir : String) :
    (newSentryOptions cfg dsn cacheDir).maxBreadcrumbs = 50
    ∧ (newSentryOptions cfg dsn cacheDir).dsn = some dsn
    ∧ (newSentryOptions cfg dsn cacheDir).databasePath = some cacheDir
    ∧ (newSentryOptions cfg dsn cacheDir).release
        = some (appVersion cfg.osFamily cfg.ver)
    ∧ (newSentryOptions cfg dsn cacheDir).environment = some cfg.buildEnv
    ∧ (newSentryOptions cfg dsn cacheDir).handlerPath = none :=
  ⟨rfl, rfl, rfl, rfl, rfl, rfl⟩

/-- C8: `appVersion v` is `"<getApiOS()>-bridge@<v>"` for every version
string; on a Linux-reporting system `appVersion "1.2.3"` is exactly
`"linux-bridge@1.2.3"`. -/
theorem appVersion_spec (osf : OSFamily) (version : String) :
    appVersion osf version = getApiOS osf ++ "-bridge@" ++ version
    ∧ appVersion OSFamily.Linux "1.2.3" = "linux-bridge@1.2.3" :=
  ⟨rfl, rfl⟩

/-- C9: after `setSentryReportScope`, the `server_name` tag and the user
object's `id` field carry the same value: the lowercase hex SHA-256 digest of
the machine hostname. -/
theorem scope_server_name_matches_user_id (cfg : Config) (st : ClientState) :
    lookupTag (setSentryReportScope cfg st).tags "server_name"
      = some (getProtectedHostname cfg.hostname)
    ∧ (setSentryReportScope cfg st).user
      = some [("id", getProtectedHostname cfg.hostname)]
    ∧ getProtectedHostname cfg.hostname
      = bytesToHex (sha256Bytes (utf8Encode cfg.hostname)) :=
  ⟨(scope_lookups cfg st).2.2.2.2, rfl, rfl⟩

/-- C10: `reportSentryException` submits exactly the event
`reportSentryEvent` would submit plus one attached exception object built
from the given type and value; both stamp the event with logger
`"bridge-gui"` and return the id assigned by `sentry_capture_event`. -/
theorem reportSentryException_refines (level : Int)
    (message exceptionType exceptionValue : String) (st : ClientState) :
    reportSentryEvent level message st
      = sentry_capture_event st (sentry_value_new_message_event level LoggerName message)
    ∧ reportSentryException level message exceptionType exceptionValue st
      = sentry_capture_event st
          { sentry_value_new_message_event level LoggerName message with
              exceptions :=
                (sentry_value_new_message_event level LoggerName message).exceptions
                  ++ [sentry_value_new_exception exceptionType exceptionValue] }
    ∧ (sentry_value_new_message_event level LoggerName message).logger = "bridge-gui"
    ∧ (reportSentryEvent level message st).1 = st.nextId
    ∧ (reportSentryException level message exceptionType exceptionValue st).1 = st.nextId
    ∧ (reportSentryEvent level message st).2.events
        = st.events ++ [sentry_value_new_message_event level LoggerName message]
    ∧ (reportSentryException level message exceptionType exceptionValue st).2.events
        = st.events
          ++ [sentry_event_add_exception
                (sentry_value_new_message_event level LoggerName message)
                (sentry_value_new_exception exceptionType exceptionValue)] :=
  ⟨rfl, rfl, rfl, rfl, rfl, rfl, rfl⟩

end SentryUtils
